import Mathlib

/-!
Verification of the serial link manager of uart_sms_forwarder against its
natural-language specification.  The Go code under internal/service (the
SerialService supervisor, reader loop, refresh loop, command sender, status
cache and backoff-driven reconnect) is shallowly embedded below; time
durations are modelled as rationals (milliseconds), goroutine loops as
functions from their event inputs to the trace of their effects.

The frame codec (parseSMSFrame and friends), the message router and the
OperData carrier table are referenced by the Go sources but their defining
file is not part of the sources available here; those definitions are
modelled from the specification text (sections 4.1, 4.4, 6) and are marked
as such in their doc comments.
-/

/-! ## A small JSON value model

Modelled from the spec: the wire payloads are JSON objects with a string
discriminator field; the codec parses one JSON object per frame.  Values
cover the flat payload shapes the protocol recognizes (strings, integers,
booleans, null). -/

inductive JVal where
  | jstr (s : String)
  | jnum (n : Int)
  | jbool (b : Bool)
  | jnull
  deriving Repr, DecidableEq

abbrev JObj := List (String × JVal)

/-- Skips blanks and tabs. -/
def skipWs : List Char → List Char
  | c :: cs => if c = ' ' ∨ c = '\t' then skipWs cs else c :: cs
  | [] => []

/-- Reads the characters of a JSON string up to the closing quote;
escape sequences are not modelled. -/
def jStringChars : List Char → Option (List Char × List Char)
  | [] => none
  | '"' :: cs => some ([], cs)
  | '\\' :: _ => none
  | c :: cs => (jStringChars cs).map (fun p => (c :: p.1, p.2))

/-- Longest leading run of decimal digits. -/
def jDigits : List Char → List Char × List Char
  | [] => ([], [])
  | c :: cs =>
    if c.isDigit then
      let p := jDigits cs
      (c :: p.1, p.2)
    else ([], c :: cs)

def digitsToNat (ds : List Char) : Nat :=
  ds.foldl (fun a c => a * 10 + (c.toNat - '0'.toNat)) 0

/-- Reads an optionally signed integer literal. -/
def jNumber : List Char → Option (Int × List Char)
  | '-' :: cs =>
    match jDigits cs with
    | ([], _) => none
    | (ds, rest) => some (-(digitsToNat ds : Int), rest)
  | cs =>
    match jDigits cs with
    | ([], _) => none
    | (ds, rest) => some ((digitsToNat ds : Int), rest)

/-- Reads one JSON scalar value. -/
def jValue : List Char → Option (JVal × List Char)
  | [] => none
  | '"' :: cs => (jStringChars cs).map (fun p => (.jstr (String.mk p.1), p.2))
  | 't' :: 'r' :: 'u' :: 'e' :: cs => some (.jbool true, cs)
  | 'f' :: 'a' :: 'l' :: 's' :: 'e' :: cs => some (.jbool false, cs)
  | 'n' :: 'u' :: 'l' :: 'l' :: cs => some (.jnull, cs)
  | cs => (jNumber cs).map (fun p => (.jnum p.1, p.2))

/-- Reads the members of a JSON object after the opening brace, consuming the
closing brace.  The fuel argument bounds recursion by the input length. -/
def jMembers : Nat → List Char → Option (JObj × List Char)
  | 0, _ => none
  | fuel + 1, cs =>
    match skipWs cs with
    | '"' :: cs1 =>
      match jStringChars cs1 with
      | none => none
      | some (key, cs2) =>
        match skipWs cs2 with
        | ':' :: cs3 =>
          match jValue (skipWs cs3) with
          | none => none
          | some (v, cs4) =>
            match skipWs cs4 with
            | ',' :: cs5 =>
              match jMembers fuel cs5 with
              | none => none
              | some (obj, rest) => some ((String.mk key, v) :: obj, rest)
            | '\x7d' :: cs5 => some ([(String.mk key, v)], cs5)
            | _ => none
        | _ => none
    | _ => none

/-- Parses a complete JSON object, rejecting trailing garbage. -/
def parseJObj (s : String) : Option JObj :=
  match skipWs s.toList with
  | '\x7b' :: rest =>
    match skipWs rest with
    | '\x7d' :: tail => if skipWs tail = [] then some [] else none
    | rest2 =>
      match jMembers (rest2.length + 1) rest2 with
      | some (obj, tail) => if skipWs tail = [] then some obj else none
      | none => none
  | _ => none

/-- Serializes a JSON scalar. -/
def jEncodeVal : JVal → String
  | .jstr s => "\"" ++ s ++ "\""
  | .jnum n => toString n
  | .jbool true => "true"
  | .jbool false => "false"
  | .jnull => "null"

def jEncodePairs : JObj → String
  | [] => ""
  | [(k, v)] => "\"" ++ k ++ "\":" ++ jEncodeVal v
  | (k, v) :: rest => "\"" ++ k ++ "\":" ++ jEncodeVal v ++ "," ++ jEncodePairs rest

/-- Serializes a JSON object (field order as listed; the Go encoder orders map
keys alphabetically, which no claim depends on). -/
def jsonEncodeObj (o : JObj) : String :=
  "\x7b" ++ jEncodePairs o ++ "\x7d"

/-! ## Wire envelope markers (section 6 of the spec; also fixed by the
firmware script in main.lua) -/

def smsStartMarker : String := "SMS_START:"
def smsEndMarker : String := ":SMS_END"
def cmdStartMarker : String := "CMD_START:"
def cmdEndMarker : String := ":CMD_END"

/-- Characters after the first occurrence of the pattern, or none when the
pattern does not occur. -/
def listAfterMarker (pat : List Char) : List Char → Option (List Char)
  | [] => none
  | c :: cs =>
    if pat.isPrefixOf (c :: cs) then some ((c :: cs).drop pat.length)
    else listAfterMarker pat cs

/-- Characters before the first occurrence of the pattern, or none when the
pattern does not occur. -/
def listBeforeMarker (pat : List Char) : List Char → Option (List Char)
  | [] => none
  | c :: cs =>
    if pat.isPrefixOf (c :: cs) then some []
    else (listBeforeMarker pat cs).map (fun r => c :: r)

/-- Content between the downstream envelope markers: the text after the
first start marker and before the next end marker, or none when the line
does not carry both markers in that order. -/
def frameContent (data : String) : Option String :=
  match listAfterMarker smsStartMarker.toList data.toList with
  | none => none
  | some rest =>
    match listBeforeMarker smsEndMarker.toList rest with
    | none => none
    | some jsonChars => some (String.mk jsonChars)

/-- Whether a received line carries the downstream envelope: the start marker
occurs and the end marker occurs after it. -/
def isFramed (data : String) : Bool :=
  (frameContent data).isSome

/-! ## Frame codec, downstream direction

Modelled from the spec: section 4.1 — locate the downstream envelope
markers; if absent, signal that the line is not a framed message; if framed
but the JSON content is missing or malformed, signal a distinct parse
failure; on success require a type field, whose absence is a distinct,
specifically flagged failure.  The Go file defining parseSMSFrame and its
two sentinel errors is not among the available sources; its callers in
notifier.go fix the three distinct error signals. -/

inductive FrameError where
  | notSMSFrame
  | parseFailure
  | missingType
  deriving Repr, DecidableEq

structure ParsedMessage where
  type : String
  json : String
  payload : JObj
  deriving Repr, DecidableEq

/-- Payload step of the decode: parse the JSON between the markers and
require a string-valued type field. -/
def parseFramePayload (jsonStr : String) : Except FrameError ParsedMessage :=
  match parseJObj jsonStr with
  | none => .error .parseFailure
  | some obj =>
    match List.lookup "type" obj with
    | some (.jstr t) => .ok ⟨t, jsonStr, obj⟩
    | _ => .error .missingType

def parseSMSFrame (data : String) : Except FrameError ParsedMessage :=
  match frameContent data with
  | none => .error .notSMSFrame
  | some jsonStr => parseFramePayload jsonStr

/-! ## Reader loop (SerialService.processReceivedData and
SerialService.listenSerialData, notifier.go) -/

/-- Observable outcome of handling one received line: skipped silently,
logged as a missing-type warning, logged as a parse error, or routed. -/
inductive ProcAction where
  | skipSilent
  | warnMissingType
  | logParseError
  | route (m : ParsedMessage)
  deriving Repr, DecidableEq

/-- Embeds SerialService.processReceivedData: parse the line; a line that is
not a framed message is dropped silently, a missing type is logged as a
warning, any other parse failure is logged as an error, and only a
successfully decoded message reaches the router. -/
def processReceivedData (data : String) : ProcAction :=
  match parseSMSFrame data with
  | .error .notSMSFrame => .skipSilent
  | .error .missingType => .warnMissingType
  | .error .parseFailure => .logParseError
  | .ok m => .route m

/-- Reason the reader loop returns: end of stream, a read error, connection
context cancelled, or a panic in the loop body. -/
inductive ReaderExit where
  | eofExit
  | readErrExit
  | ctxDoneExit
  | panicExit
  deriving Repr, DecidableEq

/-- Input of one reader-loop run: the lines successfully read, in order,
followed by the event that ends the loop. -/
structure ReaderSession where
  lines : List String
  exit : ReaderExit
  deriving Repr, DecidableEq

/-- Effects of a goroutine's deferred block when its loop returns. -/
structure TeardownEffects where
  recoveredPanic : Bool
  portClosed : Bool
  portSetNil : Bool
  ctxCancelled : Bool
  deriving Repr, DecidableEq

/-- Embeds the deferred block of SerialService.listenSerialData: whatever the
exit reason, a panic is recovered and logged, the port handle is closed and
cleared, and the connection context is cancelled. -/
def listenTeardown (ex : ReaderExit) : TeardownEffects :=
  { recoveredPanic := ex == .panicExit
    portClosed := true
    portSetNil := true
    ctxCancelled := true }

/-- Embeds SerialService.listenSerialData: each line read is trimmed and
handed to processReceivedData; the loop processes every line regardless of
decode outcomes, and the deferred teardown runs on exit. -/
def listenSerialData (sess : ReaderSession) : List ProcAction × TeardownEffects :=
  (sess.lines.map (fun l => processReceivedData l.trim), listenTeardown sess.exit)

/-- Embeds the deferred block of SerialService.periodicCacheUpdate: a panic
is recovered and logged, and nothing else happens — the port is not closed
and the connection context is not cancelled. -/
def refreshTeardown (panicked : Bool) : TeardownEffects :=
  { recoveredPanic := panicked
    portClosed := false
    portSetNil := false
    ctxCancelled := false }

/-- Location of a recovered panic inside the per-connection goroutines. -/
inductive PanicLoc where
  | readerLoop
  | refreshLoop
  deriving Repr, DecidableEq

/-- Deferred effects actually run when a panic occurs in the given loop. -/
def panicTeardown : PanicLoc → TeardownEffects
  | .readerLoop => listenTeardown .panicExit
  | .refreshLoop => refreshTeardown true

/-- Whether the supervisor reaches its Disconnected transition after a panic
in the given loop.  The supervisor blocks on the wait group of both loops;
the sibling loop exits only when the connection context is cancelled (the
refresh loop selects on it, the reader additionally needs the handle closed
to unblock its read), so the transition is reached exactly when the panicking
loop's teardown cancels the context. -/
def disconnectAfterPanic (loc : PanicLoc) : Bool :=
  (panicTeardown loc).ctxCancelled

/-! ## Status cache (section 4.5; the go-orz TTL cache used by the service)

Modelled from the spec: a time-bounded single-device cache — set stores a
value that expires a fixed time-to-live after the set, get treats an entry
at or past its expiry as absent, delete evicts.  Times are rational
milliseconds. -/

/-- Constants of notifier.go: the cache key, the refresh interval and the
cache time-to-live, in milliseconds. -/
def CacheKeyDeviceStatus : String := "device_status"

def CacheRefreshInterval : ℚ := 30000

def CacheTTL : ℚ := 300000

/-- Mobile part of the device status snapshot (StatusData.Mobile in the Go
sources); the float-valued rsrq field is modelled as a rational. -/
structure MobileInfo where
  isRegistered : Bool := false
  isRoaming : Bool := false
  iccid : String := ""
  signalDesc : String := ""
  signalLevel : Int := 0
  simReady : Bool := false
  rssi : Int := 0
  csq : Int := 0
  rsrp : Int := 0
  rsrq : ℚ := 0
  imsi : String := ""
  number : String := ""
  operator : String := ""
  uptime : Int := 0
  deriving Repr, DecidableEq

/-- Device status snapshot (StatusData in the Go sources): device-reported
fields plus the gateway-local port name and connected flag.  Field defaults
are the Go zero values. -/
structure StatusData where
  cellularEnabled : Bool := false
  type : String := ""
  version : String := ""
  mobile : MobileInfo := {}
  timestamp : Int := 0
  memKb : Int := 0
  portName : String := ""
  connected : Bool := false
  deriving Repr, DecidableEq

structure CacheEntry where
  value : StatusData
  expiresAt : ℚ
  deriving Repr, DecidableEq

abbrev DeviceCache := List (String × CacheEntry)

def cacheSet (c : DeviceCache) (k : String) (v : StatusData) (now ttl : ℚ) : DeviceCache :=
  (k, ⟨v, now + ttl⟩) :: c.filter (fun e => e.1 != k)

def cacheGet (c : DeviceCache) (k : String) (now : ℚ) : Option StatusData :=
  match c.find? (fun e => e.1 == k) with
  | some (_, entry) => if now < entry.expiresAt then some entry.value else none
  | none => none

def cacheDelete (c : DeviceCache) (k : String) : DeviceCache :=
  c.filter (fun e => e.1 != k)

/-- Embeds SerialService.GetStatus: read the gateway-local connection info,
then overlay it on the cached snapshot when the cache holds one, or on a
zero-value snapshot otherwise; the error result is always nil. -/
def GetStatus (portName : String) (connected : Bool) (cache : DeviceCache)
    (now : ℚ) : Except String StatusData :=
  match cacheGet cache CacheKeyDeviceStatus now with
  | some st => .ok { st with portName := portName, connected := connected }
  | none => .ok { portName := portName, connected := connected }

/-! ## Status-response handler (SerialService.handleStatusResponse)

The handler itself is among the sources; the OperData carrier table it
consults is not, so the table is an explicit argument here — modelled from
the spec: a static lookup table keyed by the first five digits of the IMSI.
The JSON-to-struct unmarshalling of the payload is likewise passed as a
function argument. -/

/-- Operator augmentation step of handleStatusResponse: when the IMSI is
longer than five characters, replace the operator field by the table entry
for its first five characters, falling back to that five-character code
itself; a shorter IMSI leaves the snapshot unchanged. -/
def applyOperatorLookup (operData : List (String × String)) (sd : StatusData) : StatusData :=
  if 5 < sd.mobile.imsi.length then
    { sd with mobile.operator :=
        (List.lookup (sd.mobile.imsi.take 5) operData).getD (sd.mobile.imsi.take 5) }
  else sd

/-- Embeds SerialService.handleStatusResponse: unmarshal the payload (a
failure is logged and leaves the cache untouched), augment the operator
field, and store the snapshot under the device-status key with the fixed
time-to-live. -/
def handleStatusResponse (operData : List (String × String))
    (unmarshal : String → Option StatusData) (msg : ParsedMessage)
    (cache : DeviceCache) (now : ℚ) : DeviceCache :=
  match unmarshal msg.json with
  | none => cache
  | some sd => cacheSet cache CacheKeyDeviceStatus (applyOperatorLookup operData sd) now CacheTTL

/-! ## Command sender (SerialService.sendJSONCommand and its callers) -/

/-- Port handle as the command sender sees it: present or absent, and
whether a write on it succeeds. -/
structure PortHandle where
  writeOk : Bool
  deriving Repr, DecidableEq

inductive CmdError where
  | notConnected
  | writeFailed
  deriving Repr, DecidableEq

/-- Outcome of one sendJSONCommand call: the error result, the frames that
reached the wire, and how many write attempts were made. -/
structure CmdOutcome where
  err : Option CmdError
  written : List String
  attempts : Nat
  deriving Repr, DecidableEq

/-- Embeds buildCommandMessage.  Modelled from the spec (section 4.1 encode
contract, section 6 wire protocol, matching the inline framing in
autoDetectPort): the JSON serialization of the command wrapped in the
upstream markers with a CRLF terminator.  Serialization of a JObj cannot
fail, so the error result of the Go function does not arise. -/
def buildCommandMessage (cmd : JObj) : String × String :=
  let jsonData := jsonEncodeObj cmd
  (cmdStartMarker ++ jsonData ++ cmdEndMarker ++ "\r\n", jsonData)

/-- Embeds SerialService.sendJSONCommand: fail with the distinct
not-connected error when no handle is open, without touching the wire;
otherwise build the framed command and attempt exactly one write,
propagating a write failure. -/
def sendJSONCommand (port : Option PortHandle) (cmd : JObj) : CmdOutcome :=
  match port with
  | none => ⟨some .notConnected, [], 0⟩
  | some p =>
    let message := (buildCommandMessage cmd).1
    if p.writeOk then ⟨none, [message], 1⟩ else ⟨some .writeFailed, [], 1⟩

/-- Embeds SerialService.ResetStack: a single fixed command, errors
propagated directly. -/
def ResetStack (port : Option PortHandle) : CmdOutcome :=
  sendJSONCommand port [("action", .jstr "reset_stack")]

/-- Embeds SerialService.RebootMcu: a single fixed command, errors
propagated directly. -/
def RebootMcu (port : Option PortHandle) : CmdOutcome :=
  sendJSONCommand port [("action", .jstr "reboot_mcu")]

/-- Embeds SerialService.requestCacheUpdate: the status poll sent by the
refresh loop; its error result is logged and swallowed, the outcome shown
here is what the underlying send produced. -/
def requestCacheUpdate (port : Option PortHandle) : CmdOutcome :=
  sendJSONCommand port [("action", .jstr "get_status")]

/-! ## Outbound SMS records and SerialService.SendSMS -/

inductive MessageType where
  | incoming
  | outgoing
  deriving Repr, DecidableEq

inductive MessageStatus where
  | received
  | sending
  | sent
  | failed
  deriving Repr, DecidableEq

/-- Persisted message record (models.TextMessage as used by SendSMS); the Go
field named Type is rendered MsgType because Type is reserved in Lean. -/
structure TextMessage where
  ID : String
  From : String
  To : String
  Content : String
  MsgType : MessageType
  Status : MessageStatus
  CreatedAt : Int
  deriving Repr, DecidableEq

/-- Storage collaborator: saving appends the record. -/
def saveMessage (store : List TextMessage) (m : TextMessage) : List TextMessage :=
  store ++ [m]

/-- Storage collaborator: updating a record's status by id. -/
def updateStatusById (store : List TextMessage) (id : String) (st : MessageStatus) :
    List TextMessage :=
  store.map (fun m => if m.ID == id then { m with Status := st } else m)

def statusOf (store : List TextMessage) (id : String) : Option MessageStatus :=
  (store.find? (fun m => m.ID == id)).map (fun m => m.Status)

inductive SendSMSError where
  | saveFailed
  | cmdFailed (e : CmdError)
  deriving Repr, DecidableEq

/-- Observable effects of one SendSMS call, in order. -/
inductive SendEvent where
  | saved (r : TextMessage)
  | wroteWire (frame : String)
  | updatedStatus (id : String) (st : MessageStatus)
  deriving Repr, DecidableEq

/-- Environment of one SendSMS call: the fresh uuid the call draws, whether
the storage save succeeds, and the port handle state. -/
structure SendEnv where
  newId : String
  saveOk : Bool
  port : Option PortHandle

structure SendOut where
  result : Except SendSMSError String
  events : List SendEvent
  store : List TextMessage

/-- Outbound record exactly as SendSMS persists it before writing: empty
sender, status sending. -/
def pendingRecord (id toNum content : String) (now : Int) : TextMessage :=
  { ID := id, From := "", To := toNum, Content := content,
    MsgType := .outgoing, Status := .sending, CreatedAt := now }

/-- Send command carrying the tracking id as its request_id field. -/
def sendSmsCmd (toNum content id : String) : JObj :=
  [("action", .jstr "send_sms"), ("to", .jstr toNum),
   ("content", .jstr content), ("request_id", .jstr id)]

/-- Embeds SerialService.SendSMS: draw a fresh id, persist an outgoing
record with status sending, and only then write the framed send command
carrying the id as its request_id; a write failure marks the record failed
and returns the error, a successful write returns the tracking id at once
(any device confirmation arrives later through the router). -/
def SendSMS (env : SendEnv) (now : Int) (store : List TextMessage)
    (toNum content : String) : SendOut :=
  let msgID := env.newId
  let msg := pendingRecord msgID toNum content now
  if env.saveOk then
    let store1 := saveMessage store msg
    let out := sendJSONCommand env.port (sendSmsCmd toNum content msgID)
    match out.err with
    | some e =>
      ⟨.error (.cmdFailed e),
       [.saved msg] ++ out.written.map .wroteWire ++ [.updatedStatus msgID .failed],
       updateStatusById store1 msgID .failed⟩
    | none =>
      ⟨.ok msgID, [.saved msg] ++ out.written.map .wroteWire, store1⟩
  else ⟨.error .saveFailed, [], store⟩

/-! ## Backoff (the reconnect policy configured in SerialService.Start)

Modelled from the spec: the backoff dependency keeps minDelay, maxDelay and
a multiplier, is reset to minDelay by every successful connection, advanced
geometrically with randomized jitter on every failed attempt, and capped at
maxDelay.  A duration draw takes the jitter sample r (drawn from the unit
interval at run time) as an argument: the raw delay for attempt k is
minDelay times multiplier to the k, the jittered delay interpolates between
minDelay and the raw delay by r, and the result is clamped to the
minDelay-maxDelay range.  Delays are rational milliseconds. -/

structure Backoff where
  Min : ℚ
  Max : ℚ
  Factor : ℚ
  attempt : Nat
  deriving Repr, DecidableEq

/-- Delay drawn for the current attempt with jitter sample r. -/
def Backoff.forAttempt (b : Backoff) (r : ℚ) : ℚ :=
  let durf := b.Min * b.Factor ^ b.attempt
  let durj := r * (durf - b.Min) + b.Min
  if durj < b.Min then b.Min
  else if b.Max < durj then b.Max
  else durj

def Backoff.advance (b : Backoff) : Backoff :=
  { b with attempt := b.attempt + 1 }

/-- One Duration call: the jittered delay for the current attempt, and the
state advanced for the next failure. -/
def Backoff.duration (b : Backoff) (r : ℚ) : ℚ × Backoff :=
  (b.forAttempt r, b.advance)

/-- Reset, called on every successful connection. -/
def Backoff.reset (b : Backoff) : Backoff :=
  { b with attempt := 0 }

/-- Backoff configured in SerialService.Start: 5 seconds minimum, 1 minute
maximum, factor 2, jitter enabled. -/
def serialBackoff : Backoff :=
  { Min := 5000, Max := 60000, Factor := 2, attempt := 0 }

/-- Delays produced by consecutive failed attempts with no intervening
success, one jitter sample per attempt. -/
def delaySequence (b : Backoff) : List ℚ → List ℚ
  | [] => []
  | r :: rs => b.forAttempt r :: delaySequence b.advance rs

/-! ## Port discovery and auto-detection (SerialService.autoDetectPort) -/

/-- Behavior of one candidate port under the probe: whether the open
succeeds, whether the probe write succeeds, and what a subsequent read
returns (none models a read error or zero bytes read). -/
structure ProbeResult where
  openOk : Bool
  writeOk : Bool
  readData : Option String
  deriving Repr, DecidableEq

/-- Embeds isValidResponse.  Modelled from the spec: auto-detect accepts the
first port whose probe response contains the downstream envelope markers. -/
def isValidResponse (resp : String) : Bool :=
  isFramed resp

/-- Probe command written to each candidate port: a framed get_status. -/
def probeCommandMessage : String :=
  cmdStartMarker ++ jsonEncodeObj [("action", .jstr "get_status")] ++ cmdEndMarker ++ "\r\n"

/-- Open and close events recorded while probing. -/
inductive ProbeEvent where
  | opened (p : String)
  | closed (p : String)
  deriving Repr, DecidableEq

/-- Probing of a single candidate (the loop body of autoDetectPort): a failed
open skips the port; after a successful open the port is closed regardless
of the write and read outcomes, and the port is accepted only when the read
produced data forming a valid response. -/
def probePort (probe : String → ProbeResult) (p : String) : List ProbeEvent × Bool :=
  let r := probe p
  if r.openOk then
    if r.writeOk then
      ([.opened p, .closed p], (r.readData.map isValidResponse).getD false)
    else ([.opened p, .closed p], false)
  else ([], false)

/-- Whether a candidate passes the probe. -/
def respondsValid (probe : String → ProbeResult) (p : String) : Bool :=
  (probePort probe p).2

/-- Embeds SerialService.autoDetectPort: candidates are probed in listed
order and the first that passes is returned; when none passes the detection
fails. -/
def autoDetectPort (probe : String → ProbeResult) : List String → List ProbeEvent × Except Unit String
  | [] => ([], .error ())
  | p :: ps =>
    if respondsValid probe p then ((probePort probe p).1, .ok p)
    else ((probePort probe p).1 ++ (autoDetectPort probe ps).1, (autoDetectPort probe ps).2)

def openedPorts (evts : List ProbeEvent) : List String :=
  evts.filterMap (fun e => match e with
    | .opened p => some p
    | .closed _ => none)

def closedPorts (evts : List ProbeEvent) : List String :=
  evts.filterMap (fun e => match e with
    | .opened _ => none
    | .closed p => some p)

/-! ## Connection supervisor (SerialService.runOnce and SerialService.Start) -/

/-- Environment of one connection attempt: the outcome of the port-list
enumeration (none models a GetPortsList error), the configured port name
(empty means auto-detect), the probe behavior of each candidate, the
outcome of opening the selected port, and the reader-loop input of the
session once connected. -/
structure ConnectEnv where
  portsList : Option (List String)
  cfgPort : String
  probe : String → ProbeResult
  openOk : String → Bool
  session : ReaderSession

inductive RunOnceError where
  | portsListFailed
  | noPortsFound
  | autoDetectFailed
  | openFailed
  deriving Repr, DecidableEq

/-- Supervisor-level effects, in program order. -/
inductive SupEvent where
  | publishedPortName (p : String)
  | publishedConnected (b : Bool)
  | backoffReset
  | cacheDeleted
  | slept (d : ℚ)
  deriving Repr, DecidableEq

/-- Port-selection step of runOnce: the configured port when one is set,
otherwise the auto-detected one. -/
def selectPort (env : ConnectEnv) (ports : List String) : Except Unit String :=
  if env.cfgPort ≠ "" then .ok env.cfgPort
  else (autoDetectPort env.probe ports).2

/-- Port selected by runOnce: the configured port when one is set, otherwise
the auto-detected one; none when enumeration fails, no port exists, or
auto-detection fails. -/
def selectedPort (env : ConnectEnv) : Option String :=
  match env.portsList with
  | none => none
  | some ports =>
    if ports.isEmpty then none
    else
      match selectPort env ports with
      | .ok p => some p
      | .error _ => none

/-- Whether the attempt reaches an established connection. -/
def connEstablished (env : ConnectEnv) : Bool :=
  match selectedPort env with
  | some p => env.openOk p
  | none => false

/-- Embeds SerialService.runOnce: enumerate ports, select one (configured or
auto-detected), open it; on success publish the port name and the connected
state, reset the backoff, run the reader and refresh loops to completion,
publish disconnected, and return without error; every failure to establish
the connection returns the corresponding error.  The result carries the
error, the supervisor events, and the reader-loop output of the session
when one ran. -/
def runOnce (env : ConnectEnv) :
    Option RunOnceError × List SupEvent × Option (List ProcAction × TeardownEffects) :=
  match env.portsList with
  | none => (some .portsListFailed, [], none)
  | some ports =>
    if ports.isEmpty then (some .noPortsFound, [], none)
    else
      match selectPort env ports with
      | .error _ => (some .autoDetectFailed, [], none)
      | .ok p =>
        if env.openOk p then
          (none,
           [.publishedPortName p, .publishedConnected true, .backoffReset,
            .publishedConnected false],
           some (listenSerialData env.session))
        else (some .openFailed, [], none)

/-- Output of one iteration of the Start supervision loop. -/
structure StartIterOut where
  runErr : Option RunOnceError
  events : List SupEvent
  backoff : Backoff
  connection : Option (List ProcAction × TeardownEffects)

/-- Embeds one iteration of SerialService.Start: run a connection attempt;
when it returns an error, publish disconnected, draw the current backoff
delay, evict the device-status cache entry and sleep for the delay before
the next attempt; when it returns nil the loop proceeds to the next attempt
at once.  A successful attempt resets the backoff (the reset callback runs
inside runOnce). -/
def startIteration (env : ConnectEnv) (b : Backoff) (r : ℚ) : StartIterOut :=
  match runOnce env with
  | (some e, evts, conn) =>
    let (d, b') := b.duration r
    { runErr := some e,
      events := evts ++ [.publishedConnected false, .cacheDeleted, .slept d],
      backoff := b',
      connection := conn }
  | (none, evts, conn) =>
    { runErr := none, events := evts, backoff := b.reset, connection := conn }

/-- Sleep durations occurring in a supervisor event trace. -/
def sleptDelays (evts : List SupEvent) : List ℚ :=
  evts.filterMap (fun e => match e with
    | .slept d => some d
    | _ => none)

/-! ## Codec lemmas -/

/-- The payload step never signals the not-a-framed-message outcome. -/
theorem parseFramePayload_ne_notSMSFrame (jsonStr : String) :
    parseFramePayload jsonStr ≠ .error .notSMSFrame := by
  unfold parseFramePayload
  split
  · simp
  · split <;> simp

/-- Decoding signals the not-a-framed-message outcome exactly on lines that
do not carry the downstream envelope. -/
theorem parseSMSFrame_notSMSFrame_iff (data : String) :
    parseSMSFrame data = .error .notSMSFrame ↔ isFramed data = false := by
  unfold parseSMSFrame isFramed
  cases frameContent data with
  | none => simp
  | some js => simp [parseFramePayload_ne_notSMSFrame]

/-! ## Claim C3 -/

/-- C3: a received line with no downstream envelope markers is skipped
silently; a framed line whose JSON is malformed is logged as a parse error
and skipped; a framed line with valid JSON but no type field is logged
distinctly and skipped; only successfully decoded messages reach the
router; and the reader loop processes every line regardless of decode
outcomes, its teardown (which is what closes the port and leads to the
disconnected state) being a function of the exit reason alone. -/
theorem c3_decode_failures_are_skipped (data : String) (sess : ReaderSession) :
    (processReceivedData data = .skipSilent ↔ isFramed data = false)
    ∧ (processReceivedData data = .warnMissingType ↔ parseSMSFrame data = .error .missingType)
    ∧ (processReceivedData data = .logParseError ↔ parseSMSFrame data = .error .parseFailure)
    ∧ (∀ m : ParsedMessage, processReceivedData data = .route m ↔ parseSMSFrame data = .ok m)
    ∧ (listenSerialData sess).1.length = sess.lines.length
    ∧ (listenSerialData sess).2 = listenTeardown sess.exit := by
  refine ⟨?_, ?_, ?_, ?_, by simp [listenSerialData], rfl⟩
  · rw [← parseSMSFrame_notSMSFrame_iff]
    unfold processReceivedData
    cases h : parseSMSFrame data with
    | error e => cases e <;> simp
    | ok m => simp
  · unfold processReceivedData
    cases h : parseSMSFrame data with
    | error e => cases e <;> simp
    | ok m => simp
  · unfold processReceivedData
    cases h : parseSMSFrame data with
    | error e => cases e <;> simp
    | ok m => simp
  · intro m
    unfold processReceivedData
    cases h : parseSMSFrame data with
    | error e => cases e <;> simp
    | ok m' => simp

/-- Examples exercising the three decode outcomes and a routed message. -/
example : processReceivedData "ATE0 ready" = .skipSilent := rfl

example : processReceivedData "SMS_START:notjson:SMS_END" = .logParseError := rfl

example : processReceivedData "SMS_START:\x7b\"a\":1\x7d:SMS_END" = .warnMissingType := rfl

example :
    processReceivedData "SMS_START:\x7b\"type\":\"heartbeat\"\x7d:SMS_END"
      = .route ⟨"heartbeat", "\x7b\"type\":\"heartbeat\"\x7d", [("type", .jstr "heartbeat")]⟩ := rfl

/-! ## Claim C4 -/

/-- C4 counterexample: a panic in the refresh loop is recovered, but its
deferred block closes no port and cancels no context, so the supervisor
does not reach the Disconnected transition — contrary to the claim that a
panic in either loop is treated as a disconnection. -/
theorem c4_counterexample_refresh_panic :
    (panicTeardown .refreshLoop).recoveredPanic = true
    ∧ (panicTeardown .refreshLoop).portClosed = false
    ∧ (panicTeardown .refreshLoop).ctxCancelled = false
    ∧ disconnectAfterPanic .refreshLoop = false := by decide

/-- C4 amended: a panic in the reader loop is recovered, logged, and treated
as a disconnection — the port handle is closed and cleared, the
connection-scoped context is cancelled so the sibling refresh loop exits,
and the supervisor proceeds to the Disconnected transition; a panic in the
refresh loop is recovered and logged only — the port stays open, the
context stays live, and no disconnect transition results until the reader
itself fails. -/
theorem c4_panic_recovery_per_loop :
    panicTeardown .readerLoop =
      { recoveredPanic := true, portClosed := true, portSetNil := true, ctxCancelled := true }
    ∧ disconnectAfterPanic .readerLoop = true
    ∧ panicTeardown .refreshLoop =
      { recoveredPanic := true, portClosed := false, portSetNil := false, ctxCancelled := false }
    ∧ disconnectAfterPanic .refreshLoop = false := by decide


/-! ## Claim C5 -/

/-- Clamping to a range is monotone. -/
theorem clamp_mono {lo hi x y : ℚ} (h : x ≤ y) (hlh : lo ≤ hi) :
    (if x < lo then lo else if hi < x then hi else x)
      ≤ (if y < lo then lo else if hi < y then hi else y) := by
  split_ifs <;> linarith

/-- C5 counterexample: with jitter enabled (as SerialService.Start
configures), three consecutive failed attempts with jitter samples 0, 9/10
and 0 — all drawn from the unit interval — produce the delays 5000 ms,
9500 ms, 5000 ms, which is not a non-decreasing sequence. -/
theorem c5_counterexample_jitter_not_monotone :
    delaySequence serialBackoff [0, 9/10, 0] = [5000, 9500, 5000]
    ∧ ¬ List.Chain' (· ≤ ·) (delaySequence serialBackoff [0, 9/10, 0])
    ∧ ((0 : ℚ) ≤ 0 ∧ (0 : ℚ) < 1) ∧ ((0 : ℚ) ≤ 9/10 ∧ (9/10 : ℚ) < 1) := by
  have he : delaySequence serialBackoff [0, 9/10, 0] = [5000, 9500, 5000] := by
    norm_num [delaySequence, serialBackoff, Backoff.forAttempt, Backoff.advance, Backoff.duration]
  refine ⟨he, ?_, by norm_num, by norm_num⟩
  intro hc
  rw [he] at hc
  norm_num [List.chain'_cons] at hc

/-- C5 amended: every delay the backoff state produces, whatever the jitter
sample, lies between minDelay (5 seconds) and maxDelay (1 minute); the
jitter-free delay envelope (jitter sample 1) is non-decreasing across
consecutive failed attempts; and after the reset a successful connection
performs, the next delay is exactly minDelay regardless of jitter.  Jitter
can make consecutive realized delays decrease (see the counterexample), so
only the envelope, not the realized sequence, is monotone. -/
theorem c5_backoff_bounded_envelope_monotone_reset (k : Nat) (r : ℚ) :
    serialBackoff.Min ≤ ({ serialBackoff with attempt := k } : Backoff).forAttempt r
    ∧ ({ serialBackoff with attempt := k } : Backoff).forAttempt r ≤ serialBackoff.Max
    ∧ ({ serialBackoff with attempt := k } : Backoff).forAttempt 1
        ≤ ({ serialBackoff with attempt := k } : Backoff).advance.forAttempt 1
    ∧ (Backoff.reset { serialBackoff with attempt := k }).forAttempt r = serialBackoff.Min := by
  refine ⟨?_, ?_, ?_, ?_⟩
  · unfold Backoff.forAttempt serialBackoff
    simp only
    split
    · norm_num
    · split
      · norm_num
      · linarith [le_of_not_lt (by assumption : ¬ _ < (5000 : ℚ))]
  · unfold Backoff.forAttempt serialBackoff
    simp only
    split
    · norm_num
    · split
      · norm_num
      · linarith [le_of_not_lt (by assumption : ¬ (60000 : ℚ) < _)]
  · unfold Backoff.forAttempt Backoff.advance serialBackoff
    simp only [one_mul, sub_add_cancel]
    have hmono : (5000 : ℚ) * 2 ^ k ≤ 5000 * 2 ^ (k + 1) := by
      have h2 : (2 : ℚ) ^ k ≤ 2 ^ (k + 1) :=
        pow_le_pow_right₀ (by norm_num) (Nat.le_succ k)
      linarith
    exact clamp_mono hmono (by norm_num)
  · unfold Backoff.reset Backoff.forAttempt serialBackoff
    simp only
    norm_num

/-! ## Claim C6 -/

/-- C6: GetStatus always succeeds — the error result is nil in every case —
and the returned snapshot always carries the current port name and
connected flag: overlaid on the latest cached snapshot on a cache hit, and
on a zero-value snapshot on a cache miss. -/
theorem c6_getstatus_total_overlay (p : String) (c : Bool) (cache : DeviceCache) (now : ℚ) :
    (GetStatus p c cache now).isOk = true
    ∧ (∀ st : StatusData, cacheGet cache CacheKeyDeviceStatus now = some st →
        GetStatus p c cache now = .ok { st with portName := p, connected := c })
    ∧ (cacheGet cache CacheKeyDeviceStatus now = none →
        GetStatus p c cache now = .ok { portName := p, connected := c })
    ∧ (∀ st : StatusData, GetStatus p c cache now = .ok st →
        st.portName = p ∧ st.connected = c) := by
  unfold GetStatus
  cases h : cacheGet cache CacheKeyDeviceStatus now with
  | none =>
    refine ⟨rfl, ?_, fun _ => rfl, ?_⟩
    · intro st hst
      simp at hst
    · intro st hst
      cases hst
      exact ⟨rfl, rfl⟩
  | some v =>
    refine ⟨rfl, ?_, ?_, ?_⟩
    · intro st hst
      cases hst
      rfl
    · intro hst
      simp at hst
    · intro st hst
      cases hst
      exact ⟨rfl, rfl⟩

/-- Example: a cache miss still yields a successful zero-value snapshot with
the connection fields set. -/
example :
    GetStatus "/dev/ttyUSB0" false [] 0
      = .ok { portName := "/dev/ttyUSB0", connected := false } := rfl

/-! ## Claim C7 -/

/-- Auto-detect helper: the selection result is the first candidate, in
listed order, that passes the probe. -/
theorem autoDetectPort_eq_find (probe : String → ProbeResult) (ports : List String) :
    (autoDetectPort probe ports).2
      = (ports.find? (respondsValid probe)).elim (.error ()) .ok := by
  induction ports with
  | nil => rfl
  | cons p ps ih =>
    by_cases h : respondsValid probe p
    · simp [autoDetectPort, h, List.find?_cons_of_pos]
    · simp only [Bool.not_eq_true] at h
      simp [autoDetectPort, h, List.find?_cons_of_neg, ih]

/-- Auto-detect helper: the ports opened while probing are exactly the ports
closed, in the same order. -/
theorem autoDetectPort_opened_eq_closed (probe : String → ProbeResult) (ports : List String) :
    openedPorts (autoDetectPort probe ports).1 = closedPorts (autoDetectPort probe ports).1 := by
  induction ports with
  | nil => rfl
  | cons p ps ih =>
    have hp : openedPorts (probePort probe p).1 = closedPorts (probePort probe p).1 := by
      unfold probePort
      by_cases ho : (probe p).openOk <;> by_cases hw : (probe p).writeOk <;>
        simp [ho, hw, openedPorts, closedPorts]
    by_cases h : respondsValid probe p
    · simp [autoDetectPort, h, hp]
    · simp only [Bool.not_eq_true] at h
      simp [autoDetectPort, h, openedPorts, closedPorts, List.filterMap_append] at *
      rw [hp, ih]

/-- C7: auto-detect probes candidates in enumeration order and returns the
first port that passes the probe, where passing means the open succeeded,
the probe write succeeded and a read produced data containing the
downstream envelope markers; it fails when no candidate passes; every port
it opens it also closes, the selected one included; and the probe command
written is the framed get_status command. -/
theorem c7_autodetect_first_valid_all_closed (probe : String → ProbeResult) (ports : List String) :
    (autoDetectPort probe ports).2
      = (ports.find? (respondsValid probe)).elim (.error ()) .ok
    ∧ openedPorts (autoDetectPort probe ports).1 = closedPorts (autoDetectPort probe ports).1
    ∧ (∀ p : String, respondsValid probe p = true ↔
        (probe p).openOk = true ∧ (probe p).writeOk = true
          ∧ ∃ resp, (probe p).readData = some resp ∧ isValidResponse resp = true)
    ∧ probeCommandMessage = "CMD_START:\x7b\"action\":\"get_status\"\x7d:CMD_END\r\n" := by
  refine ⟨autoDetectPort_eq_find probe ports, autoDetectPort_opened_eq_closed probe ports, ?_, rfl⟩
  intro p
  unfold respondsValid probePort
  cases hr : probe p with
  | mk o w rd =>
    cases o <;> cases w <;> cases rd <;> simp [Option.getD]

/-! ## Claim C8 -/

/-- C8: every outbound command issued while no port handle is open — the
send-SMS command, the status poll, reset-stack and reboot-MCU — fails at
once with the distinct not-connected error, attempting no write and putting
nothing on the wire; and reset-stack and reboot-MCU are single fixed
commands whose write failure is propagated directly to the caller with
exactly one write attempt, never a retry. -/
theorem c8_not_connected_and_no_retry (cmd : JObj) (port : Option PortHandle)
    (id : String) (now : Int) (store : List TextMessage) (toNum content : String) :
    sendJSONCommand none cmd = ⟨some .notConnected, [], 0⟩
    ∧ ResetStack none = ⟨some .notConnected, [], 0⟩
    ∧ RebootMcu none = ⟨some .notConnected, [], 0⟩
    ∧ requestCacheUpdate none = ⟨some .notConnected, [], 0⟩
    ∧ (SendSMS { newId := id, saveOk := true, port := none } now store toNum content).result
        = .error (.cmdFailed .notConnected)
    ∧ ResetStack port = sendJSONCommand port [("action", .jstr "reset_stack")]
    ∧ RebootMcu port = sendJSONCommand port [("action", .jstr "reboot_mcu")]
    ∧ (sendJSONCommand port cmd).attempts ≤ 1
    ∧ ResetStack (some { writeOk := false }) = ⟨some .writeFailed, [], 1⟩
    ∧ RebootMcu (some { writeOk := false }) = ⟨some .writeFailed, [], 1⟩ := by
  refine ⟨rfl, rfl, rfl, rfl, rfl, rfl, rfl, ?_, rfl, rfl⟩
  cases port with
  | none => simp [sendJSONCommand]
  | some p =>
    by_cases hw : p.writeOk <;> simp [sendJSONCommand, hw]

/-! ## Claim C2: helper lemmas about the message store -/

/-- Updating a status never changes which records are present by id. -/
theorem updateStatusById_filter_length (store : List TextMessage) (id k : String)
    (st : MessageStatus) :
    ((updateStatusById store id st).filter (fun m => m.ID == k)).length
      = (store.filter (fun m => m.ID == k)).length := by
  unfold updateStatusById
  rw [← List.countP_eq_length_filter, ← List.countP_eq_length_filter, List.countP_map]
  apply List.countP_congr
  intro m _
  by_cases hid : m.ID = id <;> simp [Function.comp, hid]

/-- Looking up a record appended behind records with other ids. -/
theorem statusOf_append_fresh (store : List TextMessage) (msg : TextMessage)
    (h : ∀ m ∈ store, (m.ID == msg.ID) = false) :
    statusOf (store ++ [msg]) msg.ID = some msg.Status := by
  unfold statusOf
  induction store with
  | nil => simp [List.find?]
  | cons a as ih =>
    rw [List.cons_append, List.find?_cons_of_neg]
    · exact ih (fun m hm => h m (List.mem_cons_of_mem a hm))
    · simp [h a (List.mem_cons_self a as)]

/-- Updating the fresh record's status and looking it up. -/
theorem statusOf_update_append_fresh (store : List TextMessage) (msg : TextMessage)
    (st : MessageStatus) (h : ∀ m ∈ store, (m.ID == msg.ID) = false) :
    statusOf (updateStatusById (store ++ [msg]) msg.ID st) msg.ID = some st := by
  unfold updateStatusById
  rw [List.map_append]
  have hstep :
      List.map (fun m => if m.ID == msg.ID then { m with Status := st } else m) [msg]
        = [{ msg with Status := st }] := by simp
  rw [hstep]
  have h' : ∀ m ∈ List.map (fun m => if m.ID == msg.ID then { m with Status := st } else m) store,
      (m.ID == ({ msg with Status := st } : TextMessage).ID) = false := by
    intro m hm
    rcases List.mem_map.mp hm with ⟨m0, hm0, rfl⟩
    have hm0' := h m0 hm0
    simp [hm0']
  have hfin := statusOf_append_fresh _ { msg with Status := st } h'
  simpa using hfin

/-- The appended fresh record is the unique one with its id. -/
theorem filter_append_fresh_length (store : List TextMessage) (msg : TextMessage)
    (h : ∀ m ∈ store, (m.ID == msg.ID) = false) :
    ((store ++ [msg]).filter (fun m => m.ID == msg.ID)).length = 1 := by
  induction store with
  | nil => simp
  | cons a as ih =>
    have ih' := ih (fun m hm => h m (List.mem_cons_of_mem a hm))
    rw [List.cons_append, List.filter_cons_of_neg (by simp [h a (List.mem_cons_self a as)])]
    exact ih'

/-! ## Claim C2 -/

/-- C2: SendSMS persists a record with the fresh id and status sending as
its first effect, before anything reaches the wire, and the new id is the
unique one in the resulting store; the wire command carries the tracking id
as its request_id; when no port is open or the write fails, the record is
marked failed and the error returned with nothing on the wire; when the
write succeeds, the call returns the tracking id at once (the model takes no
device reply at all) and the record stays in status sending. -/
theorem c2_sendsms_persist_before_write (env : SendEnv) (now : Int)
    (store : List TextMessage) (toNum content : String)
    (h1 : env.saveOk = true)
    (h2 : ∀ m ∈ store, (m.ID == env.newId) = false) :
    (SendSMS env now store toNum content).events.head?
      = some (.saved (pendingRecord env.newId toNum content now))
    ∧ ((SendSMS env now store toNum content).store.filter
        (fun m => m.ID == env.newId)).length = 1
    ∧ List.lookup "request_id" (sendSmsCmd toNum content env.newId)
        = some (.jstr env.newId)
    ∧ (env.port = none →
        (SendSMS env now store toNum content).result = .error (.cmdFailed .notConnected)
        ∧ (SendSMS env now store toNum content).events
            = [.saved (pendingRecord env.newId toNum content now),
               .updatedStatus env.newId .failed]
        ∧ statusOf (SendSMS env now store toNum content).store env.newId = some .failed)
    ∧ (∀ p : PortHandle, env.port = some p → p.writeOk = true →
        (SendSMS env now store toNum content).result = .ok env.newId
        ∧ (SendSMS env now store toNum content).events
            = [.saved (pendingRecord env.newId toNum content now),
               .wroteWire (buildCommandMessage (sendSmsCmd toNum content env.newId)).1]
        ∧ statusOf (SendSMS env now store toNum content).store env.newId = some .sending)
    ∧ (∀ p : PortHandle, env.port = some p → p.writeOk = false →
        (SendSMS env now store toNum content).result = .error (.cmdFailed .writeFailed)
        ∧ (SendSMS env now store toNum content).events
            = [.saved (pendingRecord env.newId toNum content now),
               .updatedStatus env.newId .failed]
        ∧ statusOf (SendSMS env now store toNum content).store env.newId = some .failed) := by
  have h2' : ∀ m ∈ store, (m.ID == (pendingRecord env.newId toNum content now).ID) = false := by
    simpa [pendingRecord] using h2
  cases hport : env.port with
  | none =>
    have hout : SendSMS env now store toNum content
        = ⟨.error (.cmdFailed .notConnected),
           [.saved (pendingRecord env.newId toNum content now),
            .updatedStatus env.newId .failed],
           updateStatusById (store ++ [pendingRecord env.newId toNum content now])
             env.newId .failed⟩ := by
      simp [SendSMS, h1, hport, sendJSONCommand, saveMessage]
    refine ⟨by simp [hout], ?_, rfl, ?_, ?_, ?_⟩
    · rw [hout]
      simp only
      rw [updateStatusById_filter_length]
      have hfl := filter_append_fresh_length store (pendingRecord env.newId toNum content now) h2'
      simpa [pendingRecord] using hfl
    · intro _
      refine ⟨by simp [hout], by simp [hout], ?_⟩
      rw [hout]
      simp only
      have hup := statusOf_update_append_fresh store
        (pendingRecord env.newId toNum content now) .failed h2'
      simpa [pendingRecord] using hup
    · intro p hp
      cases hp
    · intro p hp
      cases hp
  | some p =>
    by_cases hw : p.writeOk
    · have hout : SendSMS env now store toNum content
          = ⟨.ok env.newId,
             [.saved (pendingRecord env.newId toNum content now),
              .wroteWire (buildCommandMessage (sendSmsCmd toNum content env.newId)).1],
             store ++ [pendingRecord env.newId toNum content now]⟩ := by
        simp [SendSMS, h1, hport, sendJSONCommand, hw, saveMessage]
      refine ⟨by simp [hout], ?_, rfl, ?_, ?_, ?_⟩
      · rw [hout]
        simp only
        have hfl := filter_append_fresh_length store (pendingRecord env.newId toNum content now) h2'
        simpa [pendingRecord] using hfl
      · intro hnone
        cases hnone
      · intro q hq _
        refine ⟨by simp [hout], by simp [hout], ?_⟩
        rw [hout]
        simp only
        have hap := statusOf_append_fresh store (pendingRecord env.newId toNum content now) h2'
        simpa [pendingRecord] using hap
      · intro q hq hqw
        injection hq with hq
        subst hq
        simp [hqw] at hw
    · have hw' : p.writeOk = false := by
        simpa using hw
      have hout : SendSMS env now store toNum content
          = ⟨.error (.cmdFailed .writeFailed),
             [.saved (pendingRecord env.newId toNum content now),
              .updatedStatus env.newId .failed],
             updateStatusById (store ++ [pendingRecord env.newId toNum content now])
               env.newId .failed⟩ := by
        simp [SendSMS, h1, hport, sendJSONCommand, hw', saveMessage]
      refine ⟨by simp [hout], ?_, rfl, ?_, ?_, ?_⟩
      · rw [hout]
        simp only
        rw [updateStatusById_filter_length]
        have hfl := filter_append_fresh_length store (pendingRecord env.newId toNum content now) h2'
        simpa [pendingRecord] using hfl
      · intro hnone
        cases hnone
      · intro q hq hqw
        injection hq with hq
        subst hq
        simp [hqw] at hw'
      · intro q hq _
        refine ⟨by simp [hout], by simp [hout], ?_⟩
        rw [hout]
        simp only
        have hup := statusOf_update_append_fresh store
          (pendingRecord env.newId toNum content now) .failed h2'
        simpa [pendingRecord] using hup

/-- Concrete environment for the SendSMS witness: a fresh uuid, a working
store and a connected, writable port. -/
def sendEnvWit : SendEnv :=
  { newId := "8d6a0a5e-0001-4a8e-9d5c-5b8b1c2d3e4f",
    saveOk := true,
    port := some { writeOk := true } }

/-- Witness for C2 at a concrete call: both hypotheses hold (the save
succeeds and the empty store contains no colliding id) and the call returns
the tracking id with the record persisted first. -/
theorem c2_sendsms_persist_before_write_witness :
    (SendSMS sendEnvWit 1700000000000 [] "10086" "hello").events.head?
      = some (.saved (pendingRecord "8d6a0a5e-0001-4a8e-9d5c-5b8b1c2d3e4f" "10086" "hello"
          1700000000000))
    ∧ (SendSMS sendEnvWit 1700000000000 [] "10086" "hello").result
      = .ok "8d6a0a5e-0001-4a8e-9d5c-5b8b1c2d3e4f" := by
  have h := c2_sendsms_persist_before_write sendEnvWit 1700000000000 [] "10086" "hello"
    rfl (by intro m hm; cases hm)
  have hs := h.2.2.2.2.1 { writeOk := true } rfl rfl
  exact ⟨by simpa [sendEnvWit] using h.1, by simpa [sendEnvWit] using hs.1⟩

/-! ## Claim C9 -/

/-- Reading the key just written: present before the expiry instant, absent
from it on. -/
theorem cacheGet_cacheSet_same (c : DeviceCache) (k : String) (v : StatusData)
    (now ttl t : ℚ) :
    cacheGet (cacheSet c k v now ttl) k t = if t < now + ttl then some v else none := by
  unfold cacheGet cacheSet
  rw [List.find?_cons_of_pos _ (by simp)]

/-- Concrete inputs exhibiting the IMSI length guard: a status payload whose
IMSI is exactly the five-digit network code 46000, a table mapping that
code, and the unmarshalling of the payload. -/
def operDataCex : List (String × String) := [("46000", "China Mobile")]

def statusCex : StatusData := { mobile := { imsi := "46000" } }

def msgCex : ParsedMessage :=
  { type := "status_response",
    json := "\x7b\"mobile\":\x7b\"imsi\":\"46000\"\x7d\x7d",
    payload := [] }

/-- C9 counterexample: for a well-formed status payload whose IMSI is the
bare five-digit code 46000 — a code the static table maps — the handler
leaves the operator field as parsed (here empty): it neither looks the code
up nor falls back to the raw code, because the source guards the lookup
behind a strictly-greater-than-five length test. -/
theorem c9_counterexample_five_digit_imsi :
    (cacheGet (handleStatusResponse operDataCex (fun _ => some statusCex) msgCex [] 0)
        CacheKeyDeviceStatus 0).map (fun sd => sd.mobile.operator) = some ""
    ∧ List.lookup "46000" operDataCex = some "China Mobile"
    ∧ ("" : String) ≠ "China Mobile"
    ∧ ("" : String) ≠ "46000" := by
  refine ⟨?_, rfl, by decide, by decide⟩
  have h5 : ¬ (5 < ("46000" : String).length) := by decide
  rw [show handleStatusResponse operDataCex (fun _ => some statusCex) msgCex [] 0
      = cacheSet [] CacheKeyDeviceStatus statusCex 0 CacheTTL from by
    simp [handleStatusResponse, applyOperatorLookup, statusCex, h5]]
  rw [cacheGet_cacheSet_same]
  norm_num [CacheTTL, statusCex]

/-- C9 amended: for every well-formed status payload whose IMSI is longer
than five characters, the handler parses it, sets the operator field from
the static table keyed by the first five characters of the IMSI — the
mapped carrier name when the key is present, the raw five-character code
itself otherwise — and stores the snapshot under the device-status key; the
entry is readable until, and expires at, the fixed time-to-live after the
store.  An IMSI of five or fewer characters leaves the parsed operator
value untouched (see the counterexample). -/
theorem c9_status_operator_lookup (operData : List (String × String))
    (unmarshal : String → Option StatusData) (msg : ParsedMessage)
    (cache : DeviceCache) (now : ℚ) (sd : StatusData)
    (h1 : unmarshal msg.json = some sd) (h2 : 5 < sd.mobile.imsi.length) :
    handleStatusResponse operData unmarshal msg cache now
      = cacheSet cache CacheKeyDeviceStatus
          { sd with mobile.operator :=
              (List.lookup (sd.mobile.imsi.take 5) operData).getD (sd.mobile.imsi.take 5) }
          now CacheTTL
    ∧ cacheGet (handleStatusResponse operData unmarshal msg cache now) CacheKeyDeviceStatus now
        = some { sd with mobile.operator :=
            (List.lookup (sd.mobile.imsi.take 5) operData).getD (sd.mobile.imsi.take 5) }
    ∧ cacheGet (handleStatusResponse operData unmarshal msg cache now) CacheKeyDeviceStatus
        (now + CacheTTL) = none := by
  have hmain : handleStatusResponse operData unmarshal msg cache now
      = cacheSet cache CacheKeyDeviceStatus
          { sd with mobile.operator :=
              (List.lookup (sd.mobile.imsi.take 5) operData).getD (sd.mobile.imsi.take 5) }
          now CacheTTL := by
    unfold handleStatusResponse
    rw [h1]
    show cacheSet cache CacheKeyDeviceStatus (applyOperatorLookup operData sd) now CacheTTL = _
    unfold applyOperatorLookup
    rw [if_pos h2]
  refine ⟨hmain, ?_, ?_⟩
  · rw [hmain, cacheGet_cacheSet_same]
    have : now < now + CacheTTL := by
      unfold CacheTTL
      linarith
    simp [this]
  · rw [hmain, cacheGet_cacheSet_same]
    simp

/-- Concrete inputs for the C9 witness: a fifteen-digit IMSI starting with
the mapped code 46000. -/
def operDataWit : List (String × String) := [("46000", "China Mobile")]

def statusWit : StatusData := { mobile := { imsi := "460001234567890" } }

def msgWit : ParsedMessage :=
  { type := "status_response",
    json := "\x7b\"mobile\":\x7b\"imsi\":\"460001234567890\"\x7d\x7d",
    payload := [] }

/-- Witness for the amended C9 at a concrete payload: the hypotheses hold
(the unmarshalling yields the snapshot and the IMSI has fifteen characters)
and the cached snapshot carries the mapped carrier name. -/
theorem c9_status_operator_lookup_witness :
    (cacheGet (handleStatusResponse operDataWit (fun _ => some statusWit) msgWit [] 0)
        CacheKeyDeviceStatus 0).map (fun sd => sd.mobile.operator) = some "China Mobile" := by
  have h := c9_status_operator_lookup operDataWit (fun _ => some statusWit) msgWit [] 0
    statusWit rfl (by decide)
  rw [h.2.1]
  rw [show (statusWit.mobile.imsi.take 5) = "46000" from by decide]
  rfl

/-! ## Supervisor lemmas (claims C10 and C1) -/

/-- The connection attempt returns nil exactly when a connection is
established. -/
theorem runOnce_none_iff (env : ConnectEnv) :
    (runOnce env).1 = none ↔ connEstablished env = true := by
  unfold runOnce connEstablished selectedPort
  cases hpl : env.portsList with
  | none => simp
  | some ports =>
    by_cases he : ports.isEmpty
    · simp [he]
    · cases hs : selectPort env ports with
      | error e => simp [he, hs]
      | ok p => by_cases ho : env.openOk p <;> simp [he, hs, ho]

/-- The events runOnce itself publishes never include a cache eviction or a
sleep. -/
theorem runOnce_events_no_failure_branch (env : ConnectEnv) :
    SupEvent.cacheDeleted ∉ (runOnce env).2.1 ∧ sleptDelays (runOnce env).2.1 = [] := by
  unfold runOnce
  cases hpl : env.portsList with
  | none => simp [sleptDelays]
  | some ports =>
    by_cases he : ports.isEmpty
    · simp [he, sleptDelays]
    · cases hs : selectPort env ports with
      | error e => simp [he, hs, sleptDelays]
      | ok p => by_cases ho : env.openOk p <;> simp [he, hs, ho, sleptDelays]

/-- The reader and refresh loops run exactly when a connection is
established. -/
theorem runOnce_connection_iff (env : ConnectEnv) :
    (runOnce env).2.2.isSome = connEstablished env := by
  unfold runOnce connEstablished selectedPort
  cases hpl : env.portsList with
  | none => simp
  | some ports =>
    by_cases he : ports.isEmpty
    · simp [he]
    · cases hs : selectPort env ports with
      | error e => simp [he, hs]
      | ok p => by_cases ho : env.openOk p <;> simp [he, hs, ho]

/-- A port-enumeration failure is reported as exactly that error. -/
theorem runOnce_portsListFailed_iff (env : ConnectEnv) :
    env.portsList = none ↔ (runOnce env).1 = some .portsListFailed := by
  unfold runOnce
  cases hpl : env.portsList with
  | none => simp
  | some ports =>
    by_cases he : ports.isEmpty
    · simp [he]
    · cases hs : selectPort env ports with
      | error e => simp [he, hs]
      | ok p => by_cases ho : env.openOk p <;> simp [he, hs, ho]

/-- Exact shape of a successful attempt: connect, publish, run the loops to
completion, publish disconnected, return nil. -/
theorem runOnce_success (env : ConnectEnv) (h : connEstablished env = true) :
    ∃ p, runOnce env =
      (none,
       [.publishedPortName p, .publishedConnected true, .backoffReset,
        .publishedConnected false],
       some (listenSerialData env.session)) := by
  unfold connEstablished selectedPort at h
  unfold runOnce
  cases hpl : env.portsList with
  | none =>
    rw [hpl] at h
    simp at h
  | some ports =>
    by_cases he : ports.isEmpty
    · rw [hpl] at h
      simp [he] at h
    · cases hs : selectPort env ports with
      | error e =>
        rw [hpl] at h
        simp [he, hs] at h
      | ok p =>
        rw [hpl] at h
        simp [he, hs] at h
        exact ⟨p, by simp [he, hs, h]⟩

/-! ## Claim C10 -/

/-- C10: runOnce returns an error exactly when establishing the connection
fails — in particular a port-enumeration failure maps to its own error —
and returns nil whenever a connection was established, however the session
later ended; the supervisor's failure branch is tied to that error: the
cache is evicted and the backoff sleep happens in an iteration exactly when
the attempt itself failed, never after a post-connect disconnection. -/
theorem c10_failure_branch_only_on_failed_attempts (env : ConnectEnv) (b : Backoff) (r : ℚ) :
    ((runOnce env).1 = none ↔ connEstablished env = true)
    ∧ (startIteration env b r).runErr = (runOnce env).1
    ∧ ((startIteration env b r).runErr = none ↔
        SupEvent.cacheDeleted ∉ (startIteration env b r).events)
    ∧ ((startIteration env b r).runErr = none ↔
        sleptDelays (startIteration env b r).events = [])
    ∧ ((startIteration env b r).connection).isSome = connEstablished env
    ∧ (env.portsList = none ↔ (runOnce env).1 = some .portsListFailed) := by
  obtain ⟨hnotin, hslept⟩ := runOnce_events_no_failure_branch env
  have hconn := runOnce_connection_iff env
  rcases hro : runOnce env with ⟨err, evts, conn⟩
  rw [hro] at hnotin hslept hconn
  cases err with
  | none =>
    refine ⟨?_, ?_, ?_, ?_, ?_, ?_⟩
    · have := runOnce_none_iff env
      rw [hro] at this
      simpa using this
    · simp [startIteration, hro]
    · simp [startIteration, hro, hnotin]
    · simp [startIteration, hro, hslept]
    · simpa [startIteration, hro] using hconn
    · have := runOnce_portsListFailed_iff env
      rw [hro] at this
      simpa using this
  | some e =>
    refine ⟨?_, ?_, ?_, ?_, ?_, ?_⟩
    · have := runOnce_none_iff env
      rw [hro] at this
      simpa using this
    · simp [startIteration, hro]
    · simp [startIteration, hro, sleptDelays]
    · simp [startIteration, hro, sleptDelays, List.filterMap_append, hslept]
    · have := runOnce_connection_iff env
      rw [hro] at this
      simpa [startIteration, hro] using this
    · have := runOnce_portsListFailed_iff env
      rw [hro] at this
      simpa using this

/-! ## Claim C1 -/

/-- Concrete environment in which a connection is established on the
configured port and the serial read then returns end-of-stream. -/
def envDrop : ConnectEnv :=
  { portsList := some ["COM1"],
    cfgPort := "COM1",
    probe := fun _ => { openOk := false, writeOk := false, readData := none },
    openOk := fun _ => true,
    session := { lines := [], exit := .eofExit } }

/-- C1 counterexample: with a connection established and the serial read
returning end-of-stream, the supervisor iteration neither clears the
device-status cache nor sleeps for a backoff delay — the next reconnection
attempt begins immediately, contrary to the claim. -/
theorem c1_counterexample_eof_immediate_retry :
    connEstablished envDrop = true
    ∧ envDrop.session.exit = .eofExit
    ∧ (startIteration envDrop serialBackoff 0).runErr = none
    ∧ SupEvent.cacheDeleted ∉ (startIteration envDrop serialBackoff 0).events
    ∧ sleptDelays (startIteration envDrop serialBackoff 0).events = [] := by
  refine ⟨by decide, rfl, ?_, ?_, ?_⟩ <;>
    simp [startIteration, runOnce, envDrop, selectPort, sleptDelays]

/-- C1 amended: when an established connection's serial read returns
end-of-stream, the reader loop exits, its teardown closes the port, the
supervisor publishes the connection state as disconnected as its last
event and runOnce returns nil — so the next reconnection attempt begins
immediately: the device-status cache is not cleared, no backoff sleep
occurs, and the backoff is left in its reset state.  Cache eviction and the
backoff delay occur only when a connection attempt itself fails. -/
theorem c1_eof_publishes_disconnected_immediate_retry (env : ConnectEnv) (b : Backoff) (r : ℚ)
    (h1 : connEstablished env = true) (hEof : env.session.exit = .eofExit) :
    (runOnce env).1 = none
    ∧ (runOnce env).2.1.getLast? = some (.publishedConnected false)
    ∧ (runOnce env).2.2 = some (listenSerialData env.session)
    ∧ (listenSerialData env.session).2.portClosed = true
    ∧ (startIteration env b r).events = (runOnce env).2.1
    ∧ SupEvent.cacheDeleted ∉ (startIteration env b r).events
    ∧ sleptDelays (startIteration env b r).events = []
    ∧ (startIteration env b r).backoff = b.reset := by
  obtain ⟨p, hro⟩ := runOnce_success env h1
  refine ⟨by rw [hro], by rw [hro]; rfl, by rw [hro], rfl, ?_, ?_, ?_, ?_⟩ <;>
    simp [startIteration, hro, sleptDelays]

/-- Witness for the amended C1 at the concrete end-of-stream scenario: both
hypotheses hold and the iteration indeed runs no failure branch. -/
theorem c1_eof_publishes_disconnected_immediate_retry_witness :
    (runOnce envDrop).1 = none
    ∧ sleptDelays (startIteration envDrop serialBackoff 0).events = []
    ∧ (startIteration envDrop serialBackoff 0).backoff = serialBackoff.reset := by
  have h := c1_eof_publishes_disconnected_immediate_retry envDrop serialBackoff 0
    (by decide) rfl
  exact ⟨h.1, h.2.2.2.2.2.2.1, h.2.2.2.2.2.2.2⟩
